import Mathlib

/-!
Verification development for the novel-writer chapter-generation pipeline.

Shallow embedding of the Python source under `src/novel_writer/`:
- `agents/reviewer.py` (ReviewResult and its `model_post_init` status derivation,
  `format_feedback_for_writer`),
- `agents/archivist.py` (CharacterUpdate / ArchiveResult and `_apply_updates`),
- `memory/context_builder.py` (`_search_relevant_memories` dedup/sort/truncate),
- `memory/structured_store.py` (store mutations),
- `workflow/graph.py` (`create_initial_state`) and `workflow/runner.py`
  (`ChapterRunner.run`, the two-tier version/review control loop).

Conventions: Python `int` scores are `Int`; the float `distance` of retrieved
documents is modelled as `Int` (only its linear order is used by the code);
`datetime.now()` timestamps are a `Nat` parameter; Python dicts are association
lists with insert-or-overwrite-in-place semantics; the external LLM backends
(director, plotter, writer, reviewer, archivist extraction) and the external
vector-store search are oracles supplied as function parameters.
-/

namespace NovelWriter

/-- Severity levels of a review issue (`reviewer.py`, `ReviewIssue.severity`). -/
inductive Severity where
  | minor
  | moderate
  | major
  | critical
deriving DecidableEq, Repr

/-- Issue categories (`reviewer.py`, `ReviewIssue.category`). -/
inductive IssueCategory where
  | plot
  | character
  | setting
  | style
  | foreshadowing
  | logic
  | other
deriving DecidableEq, Repr

/-- A single review issue (`reviewer.py`, class `ReviewIssue`). -/
structure ReviewIssue where
  category : IssueCategory
  severity : Severity
  description : String
  location : String := ""
  suggestion : String := ""
deriving DecidableEq, Repr

/-- Review status literal (`reviewer.py`, `ReviewResult.status`). -/
inductive ReviewStatus where
  | pass
  | revision_needed
  | rewrite_needed
deriving DecidableEq, Repr

/-- Output structure of the reviewer agent (`reviewer.py`, class `ReviewResult`).
The pydantic field constraint is `score : int, ge=0, le=100`. -/
structure ReviewResult where
  status : ReviewStatus
  score : Int
  issues : List ReviewIssue := []
  strengths : List String := []
  summary : String
  revision_instructions : String := ""
deriving DecidableEq, Repr

/-- The `has_critical` computation of `ReviewResult.model_post_init`. -/
def hasCriticalIssue (issues : List ReviewIssue) : Bool :=
  issues.any (fun issue => issue.severity = Severity.critical)

/-- `ReviewResult.model_post_init` (`reviewer.py` lines 34-51): overwrite the
declared status from score and issue severities. -/
def reviewModelPostInit (r : ReviewResult) : ReviewResult :=
  let has_critical := hasCriticalIssue r.issues
  if 70 ≤ r.score ∧ has_critical = false then
    { r with status := ReviewStatus.pass }
  else if r.score < 50 then
    { r with status := ReviewStatus.rewrite_needed }
  else
    { r with status := ReviewStatus.revision_needed }

/-- Constructing a `ReviewResult` (pydantic validation then `model_post_init`):
whatever status the upstream payload declared is corrected at construction. -/
def mkReviewResult (declared : ReviewStatus) (score : Int) (issues : List ReviewIssue)
    (strengths : List String) (summary : String) (revision_instructions : String) :
    ReviewResult :=
  reviewModelPostInit
    { status := declared, score := score, issues := issues, strengths := strengths,
      summary := summary, revision_instructions := revision_instructions }

/-! Data model from `models.py`.  Python dicts are association lists with
insertion order preserved and insert-or-overwrite-in-place update semantics. -/

/-- Python `dict.get`: the binding of the key, if any. -/
def dictGet {α : Type} : List (String × α) → String → Option α
  | [], _ => none
  | p :: rest, k => if p.1 = k then some p.2 else dictGet rest k

/-- Python `d[k] = v`: overwrite in place if the key exists, else append. -/
def dictInsert {α : Type} : List (String × α) → String → α → List (String × α)
  | [], k, v => [(k, v)]
  | p :: rest, k, v =>
    if p.1 = k then (k, v) :: rest else p :: dictInsert rest k v

/-- A character record (`models.py`, class `Character`). -/
structure Character where
  name : String
  description : String := ""
  status : String := "alive"
  location : String := "unknown"
  inventory : List String := []
  relationships : List (String × String) := []
  notes : String := ""
  last_updated_chapter : Nat := 0
  skills : List (String × String) := []
  abilities : List String := []
  power_level : String := ""
  equipment : List String := []
deriving DecidableEq, Repr

/-- A chapter outline (`models.py`, class `ChapterOutline`). -/
structure ChapterOutline where
  chapter_number : Nat
  title : String := ""
  goal : String
  scenes : List String := []
  key_events : List String := []
  characters_involved : List String := []
  foreshadowing : List String := []
deriving DecidableEq, Repr

/-- A finished chapter (`models.py`, class `Chapter`); timestamps are `Nat`. -/
structure Chapter where
  chapter_number : Nat
  title : String := ""
  outline : ChapterOutline
  content : String := ""
  summary : String := ""
  word_count : Nat := 0
  created_at : Nat := 0
  updated_at : Nat := 0
deriving DecidableEq, Repr

/-- World setting (`models.py`, class `WorldSetting`). -/
structure WorldSetting where
  name : String
  genre : String := "fantasy"
  era : String := ""
  magic_system : String := ""
  core_rules : List String := []
  locations : List (String × String) := []
  factions : List (String × String) := []
deriving DecidableEq, Repr

/-- The novel record (`models.py`, class `Novel`); characters is a dict keyed
by character name. -/
structure Novel where
  novel_id : String
  title : String
  author : String := "AI Writer"
  synopsis : String := ""
  world : WorldSetting := { name := "Default World" }
  characters : List (String × Character) := []
  chapters : List Chapter := []
  total_outline : String := ""
  style_guide : String := ""
  created_at : Nat := 0
  updated_at : Nat := 0
deriving DecidableEq, Repr

/-- A timeline event (`models.py`, class `TimelineEvent`). -/
structure TimelineEvent where
  chapter_number : Nat
  event : String
  characters_involved : List String := []
  location : String := ""
  importance : String := "normal"
deriving DecidableEq, Repr

/-- A foreshadowing record (`models.py`, class `Foreshadowing`). -/
structure Foreshadowing where
  id : String
  description : String
  planted_chapter : Nat
  resolved_chapter : Option Nat := none
  status : String := "planted"
deriving DecidableEq, Repr

/-- The context packet built by `context_builder.py` (dataclass `ContextPacket`). -/
structure ContextPacket where
  world_setting : String := ""
  style_guide : String := ""
  previous_chapter_summary : String := ""
  previous_chapter_ending : String := ""
  relevant_memories : List String := []
  character_states : String := ""
  chapter_outline : String := ""
deriving DecidableEq, Repr

/-! Rendering helpers used by `ReviewerAgent.format_feedback_for_writer`
(`reviewer.py` lines 230-250).  Python f-strings render the `Literal` fields
as their literal text. -/

/-- Python rendering of the status literal. -/
def statusText : ReviewStatus → String
  | ReviewStatus.pass => "pass"
  | ReviewStatus.revision_needed => "revision_needed"
  | ReviewStatus.rewrite_needed => "rewrite_needed"

/-- Python rendering of the severity literal. -/
def severityText : Severity → String
  | Severity.minor => "minor"
  | Severity.moderate => "moderate"
  | Severity.major => "major"
  | Severity.critical => "critical"

/-- Python rendering of the category literal. -/
def categoryText : IssueCategory → String
  | IssueCategory.plot => "plot"
  | IssueCategory.character => "character"
  | IssueCategory.setting => "setting"
  | IssueCategory.style => "style"
  | IssueCategory.foreshadowing => "foreshadowing"
  | IssueCategory.logic => "logic"
  | IssueCategory.other => "other"

/-- One numbered issue block of `format_feedback_for_writer`. -/
def issueFeedbackLines (numbered : Nat × ReviewIssue) : List String :=
  let i := numbered.1
  let issue := numbered.2
  [toString i ++ ". [" ++ severityText issue.severity ++ "][" ++
      categoryText issue.category ++ "] " ++ issue.description] ++
    (if issue.location ≠ "" then ["   位置: " ++ issue.location] else []) ++
    (if issue.suggestion ≠ "" then ["   建议: " ++ issue.suggestion] else [])

/-- `ReviewerAgent.format_feedback_for_writer` (`reviewer.py` lines 230-250). -/
def formatFeedback (result : ReviewResult) : String :=
  let parts : List String :=
    ["## 审核结果: " ++ statusText result.status,
     "评分: " ++ toString result.score ++ "/100",
     "\n总结: " ++ result.summary] ++
    (if result.issues ≠ [] then
       "\n## 需要修改的问题:" ::
         (result.issues.enumFrom 1).flatMap issueFeedbackLines
     else []) ++
    (if result.revision_instructions ≠ "" then
       ["\n## 修改指令\n" ++ result.revision_instructions]
     else [])
  String.intercalate "\n" parts

/-! Archivist data model and `_apply_updates` (`agents/archivist.py`). -/

/-- Per-character state delta (`archivist.py`, class `CharacterUpdate`). -/
structure CharacterUpdate where
  name : String
  status : Option String := none
  location : Option String := none
  inventory_add : List String := []
  inventory_remove : List String := []
  relationship_updates : List String := []
  notes : String := ""
  skill_updates : List String := []
  new_abilities : List String := []
  lost_abilities : List String := []
  power_level : Option String := none
  equipment_add : List String := []
  equipment_remove : List String := []
deriving DecidableEq, Repr

/-- Output structure of the archivist agent (`archivist.py`, class `ArchiveResult`). -/
structure ArchiveResult where
  chapter_summary : String
  key_events : List String := []
  character_updates : List CharacterUpdate := []
  new_foreshadowing : List String := []
  resolved_foreshadowing : List String := []
  important_items : List String := []
  new_locations : List String := []
  entities_mentioned : List String := []
deriving DecidableEq, Repr

/-- Python truthiness of an `Optional[str]`: `None` and `""` are falsy. -/
def pyTruthy (s : Option String) : Bool :=
  match s with
  | none => false
  | some v => v ≠ ""

/-- Python `s.split(":", 1)` when `":" in s`: break a character list at the
first colon, returning the parts before and after it. -/
def breakAtFirstColon : List Char → Option (List Char × List Char)
  | [] => none
  | c :: rest =>
    if c = ':' then some ([], rest)
    else
      match breakAtFirstColon rest with
      | none => none
      | some (a, b) => some (c :: a, b)

/-- Python `str.strip()`: drop leading and trailing whitespace. -/
def pyStrip (s : String) : String :=
  String.mk
    (((s.data.dropWhile Char.isWhitespace).reverse.dropWhile
        Char.isWhitespace).reverse)

/-- Relationship delta parsing (`archivist.py` lines 186-192): split on the
first colon and strip both sides; with no colon the whole (unstripped) string
becomes a key with the sentinel value `"updated"`. -/
def parseRelationshipDelta (s : String) : String × String :=
  match breakAtFirstColon s.data with
  | some (target, statusPart) =>
    (pyStrip (String.mk target), pyStrip (String.mk statusPart))
  | none => (s, "updated")

/-- Skill delta parsing (`archivist.py` lines 201-207): split on the first
colon and strip both sides; with no colon the stripped string becomes a key
with the sentinel value `"acquired/updated"`. -/
def parseSkillDelta (s : String) : String × String :=
  match breakAtFirstColon s.data with
  | some (skill_name, skill_desc) =>
    (pyStrip (String.mk skill_name), pyStrip (String.mk skill_desc))
  | none => (pyStrip s, "acquired/updated")

/-- Fold of the relationship-delta loop over the character's relationship dict. -/
def applyRelationshipUpdates (m : List (String × String)) (deltas : List String) :
    List (String × String) :=
  deltas.foldl
    (fun acc s =>
      let p := parseRelationshipDelta s
      dictInsert acc p.1 p.2) m

/-- Fold of the skill-delta loop over the character's skill dict. -/
def applySkillUpdates (m : List (String × String)) (deltas : List String) :
    List (String × String) :=
  deltas.foldl
    (fun acc s =>
      let p := parseSkillDelta s
      dictInsert acc p.1 p.2) m

/-- The `updates` dict that `_apply_updates` builds for one character
(`archivist.py` lines 169-228), rendered as one optional value per field.
Later writes to the same dict key overwrite earlier ones, so
`inventory_remove` (recomputed from the character's original inventory)
overwrites the entry written by `inventory_add`. -/
structure CharacterUpdatesDict where
  statusVal : Option String
  locationVal : Option String
  inventoryVal : Option (List String)
  relationshipsVal : Option (List (String × String))
  notesVal : Option String
  skillsVal : Option (List (String × String))
  abilitiesVal : Option (List String)
  powerLevelVal : Option String
  equipmentVal : Option (List String)
deriving Repr

/-- Build the `updates` dict of `_apply_updates` for one character. -/
def buildCharacterUpdates (chapterNumber : Nat) (char : Character)
    (u : CharacterUpdate) : CharacterUpdatesDict :=
  let inventoryVal : Option (List String) :=
    if u.inventory_remove ≠ [] then
      some (char.inventory.filter (fun i => i ∉ u.inventory_remove))
    else if u.inventory_add ≠ [] then
      some (char.inventory ++ u.inventory_add)
    else none
  let abilitiesAfterAdd : Option (List String) :=
    if u.new_abilities ≠ [] then some (char.abilities ++ u.new_abilities) else none
  let abilitiesVal : Option (List String) :=
    if u.lost_abilities ≠ [] then
      some ((abilitiesAfterAdd.getD char.abilities).filter
        (fun a => a ∉ u.lost_abilities))
    else abilitiesAfterAdd
  let equipmentAfterAdd : Option (List String) :=
    if u.equipment_add ≠ [] then some (char.equipment ++ u.equipment_add) else none
  let equipmentVal : Option (List String) :=
    if u.equipment_remove ≠ [] then
      some ((equipmentAfterAdd.getD char.equipment).filter
        (fun e => e ∉ u.equipment_remove))
    else equipmentAfterAdd
  { statusVal := if pyTruthy u.status then u.status else none
    locationVal := if pyTruthy u.location then u.location else none
    inventoryVal := inventoryVal
    relationshipsVal :=
      if u.relationship_updates ≠ [] then
        some (applyRelationshipUpdates char.relationships u.relationship_updates)
      else none
    notesVal :=
      if u.notes ≠ "" then
        some (char.notes ++ "\n第" ++ toString chapterNumber ++ "章: " ++ u.notes)
      else none
    skillsVal :=
      if u.skill_updates ≠ [] then
        some (applySkillUpdates char.skills u.skill_updates)
      else none
    abilitiesVal := abilitiesVal
    powerLevelVal := if pyTruthy u.power_level then u.power_level else none
    equipmentVal := equipmentVal }

/-- Python `if updates:` — is the updates dict nonempty? -/
def characterUpdatesNonempty (d : CharacterUpdatesDict) : Bool :=
  d.statusVal.isSome || d.locationVal.isSome || d.inventoryVal.isSome ||
    d.relationshipsVal.isSome || d.notesVal.isSome || d.skillsVal.isSome ||
    d.abilitiesVal.isSome || d.powerLevelVal.isSome || d.equipmentVal.isSome

/-- `StructuredStore.update_character` applied to the built dict: setattr each
dict entry, then set `last_updated_chapter` (`structured_store.py` lines 128-139). -/
def setCharacterFields (chapterNumber : Nat) (char : Character)
    (d : CharacterUpdatesDict) : Character :=
  { char with
    status := d.statusVal.getD char.status
    location := d.locationVal.getD char.location
    inventory := d.inventoryVal.getD char.inventory
    relationships := d.relationshipsVal.getD char.relationships
    notes := d.notesVal.getD char.notes
    skills := d.skillsVal.getD char.skills
    abilities := d.abilitiesVal.getD char.abilities
    power_level := d.powerLevelVal.getD char.power_level
    equipment := d.equipmentVal.getD char.equipment
    last_updated_chapter := chapterNumber }

/-- Net effect of `_apply_updates` on one character record. -/
def applyCharacterUpdate (chapterNumber : Nat) (char : Character)
    (u : CharacterUpdate) : Character :=
  setCharacterFields chapterNumber char (buildCharacterUpdates chapterNumber char u)

/-- Foreshadowing records created while archiving one chapter
(`archivist.py` lines 248-254): every record's id is
`"fs_<chapter_number>_<n>"` where `n = len(result.new_foreshadowing)`. -/
def mkNewForeshadowing (chapterNumber : Nat) (new_foreshadowing : List String) :
    List Foreshadowing :=
  new_foreshadowing.map
    (fun desc =>
      { id := "fs_" ++ toString chapterNumber ++ "_" ++
          toString new_foreshadowing.length
        description := desc
        planted_chapter := chapterNumber })

/-! Store state and mutations (`memory/structured_store.py`, and the
`RetrievalIndex` boundary of `memory/vector_store.py`). -/

/-- One `index_chapter` call recorded at the RetrievalIndex boundary
(`vector_store.py`, `add_chapter`; the ChromaDB internals are external). -/
structure IndexedChapter where
  chapter_id : Nat
  content : String
  summary : String
  entities : List String
deriving DecidableEq, Repr

/-- In-memory state of `StructuredStore` (novel with its characters and
chapters, the timeline list, the foreshadowing list). -/
structure StructuredStoreState where
  novel : Option Novel := none
  timeline : List TimelineEvent := []
  foreshadowing : List Foreshadowing := []
deriving DecidableEq, Repr

/-- Combined persistent state the pipeline can mutate. -/
structure Stores where
  structured : StructuredStoreState
  vector : List IndexedChapter
deriving DecidableEq, Repr

/-- Ordering used by the Python `list.sort(key=lambda c: c.chapter_number)`
on chapters; `insertionSort` is stable, like Python's sort. -/
def chapterLE (a b : Chapter) : Prop := a.chapter_number ≤ b.chapter_number

instance : DecidableRel chapterLE :=
  fun a b => inferInstanceAs (Decidable (a.chapter_number ≤ b.chapter_number))

/-- Ordering used on timeline events. -/
def timelineLE (a b : TimelineEvent) : Prop := a.chapter_number ≤ b.chapter_number

instance : DecidableRel timelineLE :=
  fun a b => inferInstanceAs (Decidable (a.chapter_number ≤ b.chapter_number))

/-- Replace the first chapter with the given chapter number
(`Novel.get_chapter` then `chapters.index`/assignment in `save_chapter`). -/
def replaceFirstChapter : List Chapter → Chapter → List Chapter
  | [], _ => []
  | ch :: rest, c =>
    if ch.chapter_number = c.chapter_number then c :: rest
    else ch :: replaceFirstChapter rest c

/-- `StructuredStore.save_chapter` on the novel's chapter list
(`structured_store.py` lines 167-186). -/
def saveChapterList (chapters : List Chapter) (c : Chapter) : List Chapter :=
  if chapters.any (fun ch => ch.chapter_number = c.chapter_number) then
    replaceFirstChapter chapters c
  else
    (chapters ++ [c]).insertionSort chapterLE

/-- `StructuredStore.add_timeline_event` (`structured_store.py` lines 207-211). -/
def addTimelineEvent (timeline : List TimelineEvent) (e : TimelineEvent) :
    List TimelineEvent :=
  (timeline ++ [e]).insertionSort timelineLE

/-- `StructuredStore.resolve_foreshadowing` (`structured_store.py` lines
227-234): mark the first record with the id resolved. -/
def resolveForeshadowingList (l : List Foreshadowing) (fid : String)
    (resolved_chapter : Nat) : List Foreshadowing :=
  match l with
  | [] => []
  | f :: rest =>
    if f.id = fid then
      { f with resolved_chapter := some resolved_chapter, status := "resolved" } :: rest
    else f :: resolveForeshadowingList rest fid resolved_chapter

/-- The character-update fold of `_apply_updates` (`archivist.py` lines
169-235) over the novel's character dict: skip absent characters, and call
`update_character` only when the built updates dict is nonempty. -/
def applyAllCharacterUpdates (chapterNumber : Nat)
    (characters : List (String × Character)) (updates : List CharacterUpdate) :
    List (String × Character) :=
  updates.foldl
    (fun chars u =>
      match dictGet chars u.name with
      | none => chars
      | some char =>
        let d := buildCharacterUpdates chapterNumber char u
        if characterUpdatesNonempty d then
          dictInsert chars u.name (setCharacterFields chapterNumber char d)
        else chars)
    characters

/-- `ArchivistAgent._apply_updates` (`archivist.py` lines 148-260), given the
novel is initialized: returns the chapter with its summary set and the
mutated stores.  The mutation order follows the source: vector-store index,
character updates, timeline events, new foreshadowing, resolved
foreshadowing, and `save_chapter` last. -/
def applyUpdates (chapter : Chapter) (result : ArchiveResult) (novel : Novel)
    (timeline : List TimelineEvent) (foreshadowing : List Foreshadowing)
    (vector : List IndexedChapter) : Chapter × Stores :=
  let chapter := { chapter with summary := result.chapter_summary }
  let vector := vector ++
    [{ chapter_id := chapter.chapter_number, content := chapter.content,
       summary := result.chapter_summary, entities := result.entities_mentioned }]
  let characters :=
    applyAllCharacterUpdates chapter.chapter_number novel.characters
      result.character_updates
  let timeline :=
    result.key_events.foldl
      (fun tl event =>
        addTimelineEvent tl
          { chapter_number := chapter.chapter_number, event := event,
            characters_involved := result.entities_mentioned.take 5,
            importance := "normal" })
      timeline
  let foreshadowing :=
    foreshadowing ++ mkNewForeshadowing chapter.chapter_number result.new_foreshadowing
  let foreshadowing :=
    result.resolved_foreshadowing.foldl
      (fun fs fid => resolveForeshadowingList fs fid chapter.chapter_number)
      foreshadowing
  let novel :=
    { novel with
      characters := characters
      chapters := saveChapterList novel.chapters chapter }
  (chapter,
   { structured :=
       { novel := some novel
         timeline := timeline
         foreshadowing := foreshadowing }
     vector := vector })

/-! Retrieval deduplication (`memory/context_builder.py`,
`ContextBuilder._search_relevant_memories`, lines 187-208). -/

/-- A retrieved document (`vector_store.py`, dataclass `Document`); the float
`distance` is modelled as `Int` since only its ordering is used. -/
structure Document where
  content : String
  chapter_id : Nat
  entities : List String
  summary : String
  distance : Int
deriving DecidableEq, Repr

/-- The content fingerprint used for deduplication: `hash(doc.content[:100])`,
modelled as the 100-character prefix itself (a stable fingerprint). -/
def contentFingerprint (doc : Document) : String :=
  String.mk (doc.content.data.take 100)

/-- The `seen`-set dedup loop of `_search_relevant_memories`: keep a document
only if its fingerprint has not been seen, first occurrence wins. -/
def dedupMemoriesAux (seen : List String) : List Document → List Document
  | [] => []
  | doc :: rest =>
    if contentFingerprint doc ∈ seen then dedupMemoriesAux seen rest
    else doc :: dedupMemoriesAux (contentFingerprint doc :: seen) rest

/-- Deduplicate fetched fragments by content fingerprint. -/
def dedupMemories (docs : List Document) : List Document :=
  dedupMemoriesAux [] docs

/-- Ordering used by `unique_memories.sort(key=lambda x: x.distance)`. -/
def distanceLE (a b : Document) : Prop := a.distance ≤ b.distance

instance : DecidableRel distanceLE :=
  fun a b => inferInstanceAs (Decidable (a.distance ≤ b.distance))

instance : IsTotal Document distanceLE :=
  ⟨fun a b => Int.le_total a.distance b.distance⟩

instance : IsTrans Document distanceLE :=
  ⟨fun _ _ _ hab hbc => le_trans hab hbc⟩

/-- Dedup, sort ascending by distance (Python's sort is stable, as is
`insertionSort`), truncate to `max_results`. -/
def processMemories (docs : List Document) (max_results : Nat) : List Document :=
  ((dedupMemories docs).insertionSort distanceLE).take max_results

/-- `ContextBuilder._search_relevant_memories`: query the vector store for at
most 5 keywords with `top_k = 3` each, then dedup/sort/truncate.  The vector
store search is an external oracle `search : query → top_k → documents`. -/
def searchRelevantMemories (search : String → Nat → List Document)
    (keywords : List String) (max_results : Nat) : List Document :=
  let all_memories := (keywords.take 5).flatMap (fun keyword => search keyword 3)
  processMemories all_memories max_results

/-! The chapter control loop (`workflow/runner.py`, `ChapterRunner.run`,
lines 183-363) and workflow state (`workflow/graph.py`). -/

/-- Workflow state dict (`graph.py`, class `ChapterState`). -/
structure ChapterState where
  novel_id : String
  chapter_number : Nat
  chapter_goal : String
  outline : Option ChapterOutline
  context : Option ContextPacket
  draft : String
  review_result : Option ReviewResult
  retry_count : Nat
  max_retries : Nat
  final_content : String
  status : String
  error : Option String
deriving Repr

/-- `create_initial_state` (`graph.py` lines 36-56). -/
def createInitialState (novel_id : String) (chapter_number : Nat)
    (chapter_goal : String) (max_retries : Nat) : ChapterState :=
  { novel_id := novel_id
    chapter_number := chapter_number
    chapter_goal := chapter_goal
    outline := none
    context := none
    draft := ""
    review_result := none
    retry_count := 0
    max_retries := max_retries
    final_content := ""
    status := "pending"
    error := none }

/-- External-call events of one `ChapterRunner.run` execution, in order. -/
inductive Event where
  | genCall (version : Nat) (content : String)
  | reviewCall (version attempt : Nat) (result : ReviewResult)
  | reviseCall (original feedback result : String)
deriving DecidableEq, Repr

/-- Is the event a writer call (fresh generation or revision)? -/
def isGenerationEvent : Event → Bool
  | Event.genCall _ _ => true
  | Event.reviseCall _ _ _ => true
  | Event.reviewCall _ _ _ => false

/-- Is the event a fresh `writer.run` generation? -/
def isFreshGenEvent : Event → Bool
  | Event.genCall _ _ => true
  | _ => false

/-- Is the event a `writer.revise` call? -/
def isReviseEvent : Event → Bool
  | Event.reviseCall _ _ _ => true
  | _ => false

/-- Is the event a `reviewer.run` call? -/
def isReviewEvent : Event → Bool
  | Event.reviewCall _ _ _ => true
  | _ => false

/-- Oracles for the external backends consumed by the control loop, one run's
calls skolemized by call site: `gen v` is the `writer.run` output for version
`v` (outline/context/word-count arguments are fixed for the whole run),
`review v a` is the `reviewer.run` output for version `v`, attempt `a`, and
`revise original feedback` is the `writer.revise` output. -/
structure RunEnv where
  gen : Nat → String
  review : Nat → Nat → ReviewResult
  revise : String → String → String
  outline : ChapterOutline
  context : ContextPacket
  novelChapterCount : Nat
  novelId : String
  now : Nat

/-- Result of the version loop before the forced-accept step. -/
structure LoopOut where
  events : List Event
  content : Option String
  finalRR : Option ReviewResult
  passed : Bool
deriving Repr

/-- `max_versions` (`runner.py` line 186). -/
def maxVersions : Nat := 3

/-- `max_reviews_per_version` (`runner.py` line 187). -/
def maxReviewsPerVersion : Nat := 2

/-- One execution of the outer version loop (`runner.py` lines 193-341),
by recursion on the number of remaining versions.  Each iteration: fresh
generation, first review (break on pass), second review (break on pass),
otherwise pick the higher-scoring review (Python `max` keeps the first
maximal element, i.e. review 1 on ties); `rewrite_needed` saves it as the
best failed verdict and continues, `revision_needed` revises and clears the
best failed verdict. -/
def loopFrom (env : RunEnv) (version : Nat) :
    Nat → Option String → Option ReviewResult → ChapterState →
    LoopOut × ChapterState
  | 0, content, finalRR, st =>
    ({ events := [], content := content, finalRR := finalRR, passed := false }, st)
  | remaining + 1, _, finalRR, st =>
    let c := env.gen version
    let st := { st with draft := c }
    let review1 := env.review version 1
    let e1 := [Event.genCall version c, Event.reviewCall version 1 review1]
    if review1.status = ReviewStatus.pass then
      ({ events := e1, content := some c, finalRR := finalRR, passed := true },
       { st with review_result := some review1 })
    else
      let review2 := env.review version 2
      let e2 := e1 ++ [Event.reviewCall version 2 review2]
      if review2.status = ReviewStatus.pass then
        ({ events := e2, content := some c, finalRR := finalRR, passed := true },
         { st with review_result := some review2 })
      else
        let best := if review1.score < review2.score then review2 else review1
        let st := { st with review_result := some best }
        if best.status = ReviewStatus.rewrite_needed then
          let sub := loopFrom env (version + 1) remaining (some c) (some best) st
          ({ sub.1 with events := e2 ++ sub.1.events }, sub.2)
        else if best.status = ReviewStatus.revision_needed then
          let feedback := formatFeedback best
          let c2 := env.revise c feedback
          let st := { st with draft := c2 }
          let sub := loopFrom env (version + 1) remaining (some c2) none st
          ({ sub.1 with
             events := e2 ++ [Event.reviseCall c feedback c2] ++ sub.1.events },
           sub.2)
        else
          let sub := loopFrom env (version + 1) remaining (some c) finalRR st
          ({ sub.1 with events := e2 ++ sub.1.events }, sub.2)

/-- The whole control loop including the final forced-accept revision
(`runner.py` lines 344-363): if no version passed and a best failed verdict
was saved (a pydantic object is always truthy), revise once more. -/
def runControlLoop (env : RunEnv) (st : ChapterState) :
    List Event × String × Bool × ChapterState :=
  let res := loopFrom env 1 maxVersions none none st
  let out := res.1
  let current := out.content.getD ""
  if out.passed = false then
    match out.finalRR with
    | some rr =>
      let feedback := formatFeedback rr
      let c2 := env.revise current feedback
      (out.events ++ [Event.reviseCall current feedback c2], c2, out.passed, res.2)
    | none => (out.events, current, out.passed, res.2)
  else (out.events, current, out.passed, res.2)

/-- `ChapterRunner.run` (`runner.py` lines 77-403) after the
director/plotter/context stages (whose outputs are in `env`): resolve the
`max_retries` alias, default the chapter number, build the initial workflow
state, run the control loop, and build the returned `Chapter`.  Returns the
events of the run and the chapter. -/
def runChapter (env : RunEnv) (chapterGoal : String) (chapterNumber : Option Nat)
    (maxReviewAttempts : Nat) (maxRetries : Option Nat) : List Event × Chapter :=
  let maxReviewAttempts :=
    match maxRetries with
    | some m => m
    | none => maxReviewAttempts
  let chapterNumber :=
    match chapterNumber with
    | some n => n
    | none => env.novelChapterCount + 1
  let st := createInitialState env.novelId chapterNumber chapterGoal maxReviewAttempts
  let st := { st with outline := some env.outline, context := some env.context }
  let res := runControlLoop env st
  let content := res.2.1
  (res.1,
   { chapter_number := chapterNumber
     title := env.outline.title
     outline := env.outline
     content := content
     word_count := content.length
     created_at := env.now
     updated_at := env.now })

/-! Whole-pipeline run with failing stages, for the error-propagation and
no-partial-persistence property.  Each backend call may raise; exceptions are
modelled as `Except String` (the message), matching the bare `raise` in every
`except` block of `ChapterRunner.run`. -/

/-- Director stage output (`agents/director.py`, `DirectorOutput`): opaque to
the control flow, carried as its rendered directive text. -/
structure DirectorOutput where
  directive : String
deriving DecidableEq, Repr

/-- Oracles for a full pipeline run where every backend call may raise. -/
structure PipelineEnv where
  director : Except String DirectorOutput
  plotter : Except String ChapterOutline
  contextBuild : Except String ContextPacket
  gen : Nat → Except String String
  review : Nat → Nat → Except String ReviewResult
  revise : String → String → Except String String
  archiveExtract : Except String ArchiveResult
  now : Nat

/-- The version loop with failing writer/reviewer calls; structure identical
to `loopFrom`, every backend exception propagated unmodified. -/
def loopFromE (env : PipelineEnv) (version : Nat) :
    Nat → Option String → Option ReviewResult →
    Except String (Option String × Option ReviewResult × Bool)
  | 0, content, finalRR => Except.ok (content, finalRR, false)
  | remaining + 1, _, finalRR => do
    let c ← env.gen version
    let review1 ← env.review version 1
    if review1.status = ReviewStatus.pass then
      Except.ok (some c, finalRR, true)
    else do
      let review2 ← env.review version 2
      if review2.status = ReviewStatus.pass then
        Except.ok (some c, finalRR, true)
      else
        let best := if review1.score < review2.score then review2 else review1
        if best.status = ReviewStatus.rewrite_needed then
          loopFromE env (version + 1) remaining (some c) (some best)
        else if best.status = ReviewStatus.revision_needed then do
          let c2 ← env.revise c (formatFeedback best)
          loopFromE env (version + 1) remaining (some c2) none
        else
          loopFromE env (version + 1) remaining (some c) finalRR

/-- The control loop with the final forced-accept revision, failing calls
propagated. -/
def runControlLoopE (env : PipelineEnv) : Except String String := do
  let res ← loopFromE env 1 maxVersions none none
  let current := res.1.getD ""
  if res.2.2 = false then
    match res.2.1 with
    | some rr => env.revise current (formatFeedback rr)
    | none => Except.ok current
  else Except.ok current

/-- `ChapterRunner.run` end to end over the stores: novel lookup, director,
plotter, context build, control loop, chapter construction, archivist
extraction, `_apply_updates`.  Returns the outcome and the resulting stores;
every pre-archival failure leaves the stores exactly as given, because the
only store mutations live in `_apply_updates` (`archivist.py` lines 148-260),
run after the control loop has produced final content. -/
def runPipeline (env : PipelineEnv)
    (chapterNumber : Option Nat) (stores : Stores) : Except String Chapter × Stores :=
  match stores.structured.novel with
  | none => (Except.error "Novel not found. Please initialize the novel first.", stores)
  | some novel =>
    match env.director with
    | Except.error e => (Except.error e, stores)
    | Except.ok _ =>
      match env.plotter with
      | Except.error e => (Except.error e, stores)
      | Except.ok outline =>
        match env.contextBuild with
        | Except.error e => (Except.error e, stores)
        | Except.ok _ =>
          match runControlLoopE env with
          | Except.error e => (Except.error e, stores)
          | Except.ok content =>
            let chapterNumber :=
              match chapterNumber with
              | some n => n
              | none => novel.chapters.length + 1
            let chapter : Chapter :=
              { chapter_number := chapterNumber
                title := outline.title
                outline := outline
                content := content
                word_count := content.length
                created_at := env.now
                updated_at := env.now }
            match env.archiveExtract with
            | Except.error e => (Except.error e, stores)
            | Except.ok result =>
              let applied :=
                applyUpdates chapter result novel stores.structured.timeline
                  stores.structured.foreshadowing stores.vector
              (Except.ok { applied.1 with summary := result.chapter_summary },
               applied.2)

/-! Trace predicates for the no-double-revision property. -/

/-- Scan a trace remembering the content of the last fresh generation, reset
to `none` by a revision: `revisesFromFresh last t` holds when every
`reviseCall` in `t` takes as its `original_content` exactly the content of
the most recent `genCall`, with no other `reviseCall` in between. -/
def revisesFromFresh : Option String → List Event → Bool
  | _, [] => true
  | _, Event.genCall _ c :: es => revisesFromFresh (some c) es
  | last, Event.reviseCall original _ _ :: es =>
    (last = some original) && revisesFromFresh none es
  | last, Event.reviewCall _ _ _ :: es => revisesFromFresh last es

/-- The revision-eligibility state after scanning a trace: the last fresh
generation's content, or `none` if a revision already consumed it. -/
def trackLast : Option String → List Event → Option String
  | last, [] => last
  | _, Event.genCall _ c :: es => trackLast (some c) es
  | _, Event.reviseCall _ _ _ :: es => trackLast none es
  | last, Event.reviewCall _ _ _ :: es => trackLast last es

/-! Concrete example values used by witnesses and counterexamples. -/

/-- A critical-severity issue. -/
def criticalIssueExample : ReviewIssue :=
  { category := IssueCategory.plot, severity := Severity.critical,
    description := "fatal plot hole" }

/-- A reviewer payload with score 30; construction derives `rewrite_needed`. -/
def review30 : ReviewResult :=
  mkReviewResult ReviewStatus.pass 30 [] [] "low quality" ""

/-- A small outline. -/
def outlineExample : ChapterOutline :=
  { chapter_number := 1, goal := "open the story" }

/-- A pure-loop environment whose reviewer always scores 30. -/
def env30 : RunEnv :=
  { gen := fun v =>
      if v = 1 then "draft one" else if v = 2 then "draft two" else "draft three"
    review := fun _ _ => review30
    revise := fun original _ => "revised " ++ original
    outline := outlineExample
    context := {}
    novelChapterCount := 0
    novelId := "novel"
    now := 0 }

/-- A small novel and store state. -/
def novelExample : Novel :=
  { novel_id := "novel", title := "T" }

/-- Stores holding `novelExample` and nothing else. -/
def storesExample : Stores :=
  { structured := { novel := some novelExample }, vector := [] }

/-- An archive extraction result. -/
def archiveResultExample : ArchiveResult :=
  { chapter_summary := "summary" }

/-- A pipeline environment whose director stage raises. -/
def pipelineEnvDirectorFails : PipelineEnv :=
  { director := Except.error "rate limited"
    plotter := Except.ok outlineExample
    contextBuild := Except.ok {}
    gen := fun _ => Except.ok "draft"
    review := fun _ _ => Except.ok review30
    revise := fun _ _ => Except.ok "revised draft"
    archiveExtract := Except.ok archiveResultExample
    now := 0 }

/-- Retrieved documents: the first two share the 100-character content
fingerprint, the third does not. -/
def docA : Document :=
  { content := "hero meets villain", chapter_id := 1, entities := [], summary := "",
    distance := 5 }

/-- Same fingerprint as `docA`, closer distance. -/
def docB : Document :=
  { content := "hero meets villain", chapter_id := 2, entities := [], summary := "",
    distance := 1 }

/-- A different fragment. -/
def docC : Document :=
  { content := "a storm gathers", chapter_id := 3, entities := [], summary := "",
    distance := 2 }

/-! Theorems.  Shared helper lemmas first, then one theorem per claim. -/

/-- The boolean critical-issue check agrees with the propositional statement. -/
theorem hasCriticalIssue_eq_false_iff (issues : List ReviewIssue) :
    hasCriticalIssue issues = false ↔
      ∀ i ∈ issues, i.severity ≠ Severity.critical := by
  simp [hasCriticalIssue, List.any_eq_false]

/-- C1: constructing a `ReviewResult` from any declared status, any score in
0..100 and any issue list yields a status that is a pure function of score
and issue severities — `pass` iff score ≥ 70 and no critical issue, else
`rewrite_needed` iff score < 50, else `revision_needed`; in particular
score 70 with no critical issue gives `pass`, score 70 with one critical
issue gives `revision_needed`, score 49 gives `rewrite_needed`, and score 50
gives `revision_needed`, regardless of the upstream-declared status. -/
theorem C1_verdict_derivation (declared : ReviewStatus) (score : Int)
    (issues : List ReviewIssue) (strengths : List String) (summary instr : String)
    (h0 : 0 ≤ score) (h100 : score ≤ 100) :
    ((mkReviewResult declared score issues strengths summary instr).status =
        ReviewStatus.pass ↔
      70 ≤ score ∧ ∀ i ∈ issues, i.severity ≠ Severity.critical) ∧
    ((mkReviewResult declared score issues strengths summary instr).status =
        ReviewStatus.rewrite_needed ↔
      ¬(70 ≤ score ∧ ∀ i ∈ issues, i.severity ≠ Severity.critical) ∧ score < 50) ∧
    ((mkReviewResult declared score issues strengths summary instr).status =
        ReviewStatus.revision_needed ↔
      ¬(70 ≤ score ∧ ∀ i ∈ issues, i.severity ≠ Severity.critical) ∧ ¬score < 50) ∧
    (mkReviewResult ReviewStatus.rewrite_needed 70 [] [] "" "").status =
      ReviewStatus.pass ∧
    (mkReviewResult ReviewStatus.pass 70 [criticalIssueExample] [] "" "").status =
      ReviewStatus.revision_needed ∧
    (mkReviewResult ReviewStatus.pass 49 [] [] "" "").status =
      ReviewStatus.rewrite_needed ∧
    (mkReviewResult ReviewStatus.pass 50 [] [] "" "").status =
      ReviewStatus.revision_needed := by
  refine ⟨?_, ?_, ?_, by decide, by decide, by decide, by decide⟩ <;>
    · simp only [mkReviewResult, reviewModelPostInit, ← hasCriticalIssue_eq_false_iff]
      split_ifs with hpass hlow <;> simp_all

/-- C1 witness: instantiating the derivation at declared `rewrite_needed`,
score 85, no issues yields status `pass`. -/
theorem C1_verdict_derivation_witness :
    (0 : Int) ≤ 85 ∧ (85 : Int) ≤ 100 ∧
      (mkReviewResult ReviewStatus.rewrite_needed 85 [] [] "ok" "").status =
        ReviewStatus.pass :=
  ⟨by decide, by decide,
   (C1_verdict_derivation ReviewStatus.rewrite_needed 85 [] [] "ok" ""
     (by decide) (by decide)).1.mpr (by refine ⟨by decide, ?_⟩; intro i hi; cases hi)⟩

/-- Inserting a key makes it present with the inserted value. -/
theorem dictGet_dictInsert_self {α : Type} (m : List (String × α)) (k : String)
    (v : α) : dictGet (dictInsert m k v) k = some v := by
  induction m with
  | nil => simp [dictInsert, dictGet]
  | cons p rest ih =>
    by_cases h : p.1 = k <;> simp [dictInsert, dictGet, h, ih]

/-- Inserting never removes a present key. -/
theorem dictGet_dictInsert_isSome {α : Type} (m : List (String × α))
    (k : String) (v : α) (k' : String) (h : (dictGet m k').isSome) :
    (dictGet (dictInsert m k v) k').isSome := by
  induction m with
  | nil => simp [dictGet] at h
  | cons p rest ih =>
    by_cases hk : p.1 = k
    · by_cases hk' : k = k' <;>
        simp_all [dictInsert, dictGet]
    · by_cases hk' : p.1 = k' <;>
        simp_all [dictInsert, dictGet]

/-- A delta fold never removes a present key. -/
theorem deltaFold_preserves_key (f : String → String × String) :
    ∀ (deltas : List String) (m : List (String × String)) (k : String),
      (dictGet m k).isSome →
      (dictGet
        (deltas.foldl (fun acc t => dictInsert acc (f t).1 (f t).2) m) k).isSome := by
  intro deltas
  induction deltas with
  | nil => intro m k h; simpa using h
  | cons d rest ih =>
    intro m k h
    simp only [List.foldl_cons]
    exact ih _ k (dictGet_dictInsert_isSome m (f d).1 (f d).2 k h)

/-- Every delta string's parsed key is present after the fold. -/
theorem deltaFold_key_present (f : String → String × String) :
    ∀ (deltas : List String) (m : List (String × String)) (s : String),
      s ∈ deltas →
      (dictGet
        (deltas.foldl (fun acc t => dictInsert acc (f t).1 (f t).2) m)
        (f s).1).isSome := by
  intro deltas
  induction deltas with
  | nil => intro m s h; cases h
  | cons d rest ih =>
    intro m s h
    simp only [List.foldl_cons]
    rcases List.mem_cons.mp h with rfl | h'
    · exact deltaFold_preserves_key f rest _ _
        (by rw [dictGet_dictInsert_self]; rfl)
    · exact ih _ s h'

/-- C6: relationship and skill delta parsing splits on the first colon into a
stripped key and value (`"Zhang San: allies"` gives key `"Zhang San"`, value
`"allies"`); a delta with no colon keeps the whole string as a key with a
fixed sentinel value (`"updated"` for relationships, `"acquired/updated"`
for skills); parsing is total and after applying a delta list every delta's
key is present in the resulting dict — no entry is dropped. -/
theorem C6_delta_parsing :
    parseRelationshipDelta "Zhang San: allies" = ("Zhang San", "allies") ∧
    parseSkillDelta "Zhang San: allies" = ("Zhang San", "allies") ∧
    parseRelationshipDelta "mysterious scar" = ("mysterious scar", "updated") ∧
    parseSkillDelta "mysterious scar" = ("mysterious scar", "acquired/updated") ∧
    parseRelationshipDelta "a:b:c" = ("a", "b:c") ∧
    (∀ (m : List (String × String)) (deltas : List String) (s : String),
      s ∈ deltas →
      (dictGet (applyRelationshipUpdates m deltas)
        (parseRelationshipDelta s).1).isSome) ∧
    (∀ (m : List (String × String)) (deltas : List String) (s : String),
      s ∈ deltas →
      (dictGet (applySkillUpdates m deltas) (parseSkillDelta s).1).isSome) := by
  refine ⟨by decide, by decide, by decide, by decide, by decide, ?_, ?_⟩
  · intro m deltas s hs
    exact deltaFold_key_present parseRelationshipDelta deltas m s hs
  · intro m deltas s hs
    exact deltaFold_key_present parseSkillDelta deltas m s hs

/-- C6 witness: applying the two example deltas to an empty dict keeps both
entries, with the colon delta split and the colonless delta kept under the
sentinel value. -/
theorem C6_delta_parsing_witness :
    "Zhang San: allies" ∈ ["Zhang San: allies", "mysterious scar"] ∧
    (dictGet
      (applyRelationshipUpdates [] ["Zhang San: allies", "mysterious scar"])
      "Zhang San").isSome ∧
    applyRelationshipUpdates [] ["Zhang San: allies", "mysterious scar"] =
      [("Zhang San", "allies"), ("mysterious scar", "updated")] := by
  refine ⟨by decide, ?_, by decide⟩
  have h := (C6_delta_parsing.2.2.2.2.2.1) []
    ["Zhang San: allies", "mysterious scar"] "Zhang San: allies" (by decide)
  have hk : (parseRelationshipDelta "Zhang San: allies").1 = "Zhang San" := by
    decide
  rw [hk] at h
  exact h

/-- C9: when a single CharacterUpdate carries both a non-empty inventory_add
and a non-empty inventory_remove, the inventory written to the store is the
character's original inventory with the removed items filtered out; the
remove branch recomputes from the original inventory and overwrites the add
branch's dict entry, so added items not already present are lost.  The
updates dict is nonempty, so the store write does happen. -/
theorem C9_inventory_remove_overwrites_add (chapterNumber : Nat)
    (char : Character) (u : CharacterUpdate)
    (hadd : u.inventory_add ≠ []) (hrem : u.inventory_remove ≠ []) :
    (applyCharacterUpdate chapterNumber char u).inventory =
      char.inventory.filter (fun i => i ∉ u.inventory_remove) ∧
    (∀ a ∈ u.inventory_add, a ∉ char.inventory →
      a ∉ (applyCharacterUpdate chapterNumber char u).inventory) ∧
    characterUpdatesNonempty (buildCharacterUpdates chapterNumber char u) =
      true := by
  have hinv : (applyCharacterUpdate chapterNumber char u).inventory =
      char.inventory.filter (fun i => i ∉ u.inventory_remove) := by
    simp [applyCharacterUpdate, setCharacterFields, buildCharacterUpdates, hrem]
  refine ⟨hinv, ?_, ?_⟩
  · intro a _ ha hmem
    rw [hinv] at hmem
    exact ha (List.mem_of_mem_filter hmem)
  · simp [characterUpdatesNonempty, buildCharacterUpdates, hrem]

/-- C9 witness: original inventory `["sword", "potion"]`, add `["shield"]`,
remove `["potion"]` leaves `["sword"]`, without the added shield. -/
theorem C9_inventory_remove_overwrites_add_witness :
    (["shield"] : List String) ≠ [] ∧ (["potion"] : List String) ≠ [] ∧
    (applyCharacterUpdate 7
        { name := "hero", inventory := ["sword", "potion"] }
        { name := "hero", inventory_add := ["shield"],
          inventory_remove := ["potion"] }).inventory = ["sword"] ∧
    "shield" ∉ (applyCharacterUpdate 7
        { name := "hero", inventory := ["sword", "potion"] }
        { name := "hero", inventory_add := ["shield"],
          inventory_remove := ["potion"] }).inventory := by
  refine ⟨by decide, by decide, ?_, ?_⟩
  · rw [(C9_inventory_remove_overwrites_add 7
      { name := "hero", inventory := ["sword", "potion"] }
      { name := "hero", inventory_add := ["shield"],
        inventory_remove := ["potion"] } (by decide) (by decide)).1]
    decide
  · exact (C9_inventory_remove_overwrites_add 7
      { name := "hero", inventory := ["sword", "potion"] }
      { name := "hero", inventory_add := ["shield"],
        inventory_remove := ["potion"] } (by decide) (by decide)).2.1
      "shield" (by decide) (by decide)

/-- C10: every foreshadowing record created while archiving one chapter gets
the same id `"fs_<chapter_number>_<n>"`, `n` being the total count of new
foreshadowing items of that chapter, so two or more planted items collide;
concretely, two items in chapter 4 both get id `"fs_4_2"`. -/
theorem C10_foreshadowing_id_collision (chapterNumber : Nat)
    (descs : List String) :
    (mkNewForeshadowing chapterNumber descs).map (fun f => f.id) =
      descs.map (fun _ =>
        "fs_" ++ toString chapterNumber ++ "_" ++ toString descs.length) ∧
    (∀ f ∈ mkNewForeshadowing chapterNumber descs,
      ∀ g ∈ mkNewForeshadowing chapterNumber descs, f.id = g.id) ∧
    (mkNewForeshadowing 4 ["ancient seal", "strange mark"]).map
        (fun f => f.id) = ["fs_4_2", "fs_4_2"] := by
  refine ⟨?_, ?_, by decide⟩
  · simp [mkNewForeshadowing, Function.comp_def, List.map_const']
  · intro f hf g hg
    simp only [mkNewForeshadowing, List.mem_map] at hf hg
    obtain ⟨_, _, rfl⟩ := hf
    obtain ⟨_, _, rfl⟩ := hg
    rfl

/-- Deduplication returns a sublist of its input. -/
theorem dedupMemoriesAux_sublist :
    ∀ (l : List Document) (seen : List String),
      List.Sublist (dedupMemoriesAux seen l) l := by
  intro l
  induction l with
  | nil => intro seen; simp [dedupMemoriesAux]
  | cons doc rest ih =>
    intro seen
    by_cases h : contentFingerprint doc ∈ seen
    · simpa [dedupMemoriesAux, h] using List.Sublist.cons doc (ih seen)
    · simpa [dedupMemoriesAux, h] using
        List.Sublist.cons₂ doc (ih (contentFingerprint doc :: seen))

/-- Deduplication output avoids the seen set and has pairwise distinct
fingerprints. -/
theorem dedupMemoriesAux_fresh_pairwise :
    ∀ (l : List Document) (seen : List String),
      (∀ d ∈ dedupMemoriesAux seen l, contentFingerprint d ∉ seen) ∧
      List.Pairwise
        (fun a b => contentFingerprint a ≠ contentFingerprint b)
        (dedupMemoriesAux seen l) := by
  intro l
  induction l with
  | nil => intro seen; simp [dedupMemoriesAux]
  | cons doc rest ih =>
    intro seen
    by_cases h : contentFingerprint doc ∈ seen
    · simpa [dedupMemoriesAux, h] using ih seen
    · have hrest := ih (contentFingerprint doc :: seen)
      refine ⟨?_, ?_⟩
      · intro d hd
        simp only [dedupMemoriesAux, if_neg h, List.mem_cons] at hd
        rcases hd with rfl | hd
        · exact h
        · have := hrest.1 d hd
          intro hmem
          exact this (List.mem_cons_of_mem _ hmem)
      · simp only [dedupMemoriesAux, if_neg h, List.pairwise_cons]
        refine ⟨?_, hrest.2⟩
        intro d hd
        have := hrest.1 d hd
        intro heq
        exact this (heq ▸ List.mem_cons_self _ _)

/-- No fingerprint of an unseen input document is dropped by deduplication. -/
theorem dedupMemoriesAux_covers :
    ∀ (l : List Document) (seen : List String) (d : Document), d ∈ l →
      contentFingerprint d ∉ seen →
      ∃ d', d' ∈ dedupMemoriesAux seen l ∧
        contentFingerprint d' = contentFingerprint d := by
  intro l
  induction l with
  | nil => intro seen d hd; cases hd
  | cons doc rest ih =>
    intro seen d hd hfresh
    rcases List.mem_cons.mp hd with rfl | hd'
    · simp only [dedupMemoriesAux, if_neg hfresh]
      exact ⟨d, List.mem_cons_self _ _, rfl⟩
    · by_cases h : contentFingerprint doc ∈ seen
      · simp only [dedupMemoriesAux, if_pos h]
        exact ih seen d hd' hfresh
      · simp only [dedupMemoriesAux, if_neg h]
        by_cases heq : contentFingerprint d = contentFingerprint doc
        · exact ⟨doc, List.mem_cons_self _ _, heq.symm⟩
        · obtain ⟨d', hd'', hfp⟩ := ih (contentFingerprint doc :: seen) d hd'
            (by simp [heq, hfresh])
          exact ⟨d', List.mem_cons_of_mem _ hd'', hfp⟩

/-- Deduplication is the identity on lists with pairwise distinct unseen
fingerprints. -/
theorem dedupMemoriesAux_eq_self :
    ∀ (l : List Document) (seen : List String),
      (∀ d ∈ l, contentFingerprint d ∉ seen) →
      List.Pairwise
        (fun a b => contentFingerprint a ≠ contentFingerprint b) l →
      dedupMemoriesAux seen l = l := by
  intro l
  induction l with
  | nil => intro seen _ _; rfl
  | cons doc rest ih =>
    intro seen hfresh hpw
    have hdoc : contentFingerprint doc ∉ seen :=
      hfresh doc (List.mem_cons_self _ _)
    rw [List.pairwise_cons] at hpw
    simp only [dedupMemoriesAux, if_neg hdoc]
    congr 1
    refine ih (contentFingerprint doc :: seen) ?_ hpw.2
    intro d hd
    simp only [List.mem_cons]
    rintro (heq | hmem)
    · exact hpw.1 d hd heq.symm
    · exact hfresh d (List.mem_cons_of_mem _ hd) hmem

/-- The processed memory list has pairwise distinct fingerprints. -/
theorem processMemories_pairwise (xs : List Document) (m : Nat) :
    List.Pairwise
      (fun a b => contentFingerprint a ≠ contentFingerprint b)
      (processMemories xs m) := by
  have hperm := List.perm_insertionSort distanceLE (dedupMemories xs)
  have hpw := (dedupMemoriesAux_fresh_pairwise xs []).2
  exact List.Pairwise.sublist (List.take_sublist m _)
    ((hperm.pairwise_iff (fun h => Ne.symm h)).mpr hpw)

/-- The processed memory list is sorted by ascending distance. -/
theorem processMemories_sorted (xs : List Document) (m : Nat) :
    List.Sorted distanceLE (processMemories xs m) :=
  List.Pairwise.sublist (List.take_sublist m _)
    (List.sorted_insertionSort distanceLE (dedupMemories xs))

/-- The processed memory list is truncated to at most `m` fragments. -/
theorem processMemories_length_le (xs : List Document) (m : Nat) :
    (processMemories xs m).length ≤ m := by
  simp [processMemories]

/-- Dedup/sort/truncate is idempotent. -/
theorem processMemories_idempotent (xs : List Document) (m : Nat) :
    processMemories (processMemories xs m) m = processMemories xs m := by
  have h1 : dedupMemories (processMemories xs m) = processMemories xs m :=
    dedupMemoriesAux_eq_self _ [] (by intro d _; simp)
      (processMemories_pairwise xs m)
  have h2 : (processMemories xs m).insertionSort distanceLE =
      processMemories xs m :=
    List.Sorted.insertionSort_eq (processMemories_sorted xs m)
  show ((dedupMemories (processMemories xs m)).insertionSort
      distanceLE).take m = processMemories xs m
  rw [h1, h2]
  exact List.take_of_length_le (processMemories_length_le xs m)

/-- C7: the retrieval step deduplicates fetched fragments by a fingerprint of
the 100-character content prefix keeping only the first occurrence (shown
concretely: `docB` shares `docA`'s prefix and is dropped while first-seen
`docA` survives), orders survivors by ascending distance, truncates to at
most `max_memories` fragments (default 5), and feeding the result through
the dedup logic again yields the same fragment list — no growth from
repeated identical queries. -/
theorem C7_retrieval_dedup :
    processMemories [docA, docB, docC] 5 = [docC, docA] ∧
    (∀ (search : String → Nat → List Document) (kws : List String) (m : Nat),
      searchRelevantMemories search kws m =
        processMemories ((kws.take 5).flatMap (fun k => search k 3)) m) ∧
    (∀ (xs : List Document), List.Sublist (dedupMemories xs) xs) ∧
    (∀ (xs : List Document),
      List.Pairwise
        (fun a b => contentFingerprint a ≠ contentFingerprint b)
        (dedupMemories xs)) ∧
    (∀ (xs : List Document), ∀ d ∈ xs,
      ∃ d', d' ∈ dedupMemories xs ∧
        contentFingerprint d' = contentFingerprint d) ∧
    (∀ (xs : List Document) (m : Nat),
      List.Sorted distanceLE (processMemories xs m) ∧
      (processMemories xs m).length ≤ m) ∧
    (∀ (xs : List Document) (m : Nat),
      processMemories (processMemories xs m) m = processMemories xs m) := by
  refine ⟨by decide, fun _ _ _ => rfl, ?_, ?_, ?_, ?_, ?_⟩
  · intro xs; exact dedupMemoriesAux_sublist xs []
  · intro xs; exact (dedupMemoriesAux_fresh_pairwise xs []).2
  · intro xs d hd
    exact dedupMemoriesAux_covers xs [] d hd (by simp)
  · intro xs m
    exact ⟨processMemories_sorted xs m, processMemories_length_le xs m⟩
  · intro xs m
    exact processMemories_idempotent xs m

/-- A scratch workflow state used to canonicalize state-independence proofs. -/
def stateScratch : ChapterState := createInitialState "" 0 "" 0

/-- The loop's observable output does not depend on the threaded workflow
state dict (canonical form). -/
theorem loopFrom_out_canon (env : RunEnv) :
    ∀ (r v : Nat) (cc : Option String) (frr : Option ReviewResult)
      (s : ChapterState),
      (loopFrom env v r cc frr s).1 = (loopFrom env v r cc frr stateScratch).1 := by
  intro r
  induction r with
  | zero => intro v cc frr s; rfl
  | succ r ih =>
    intro v cc frr s
    simp only [loopFrom]
    split_ifs <;> simp only [ih]

/-- The loop's observable output (events, content, best failed verdict,
passed flag) does not depend on the threaded workflow state dict: the state
fields written by the loop are never read back. -/
theorem loopFrom_out_state_indep (env : RunEnv) (r v : Nat) (cc : Option String)
    (frr : Option ReviewResult) (s s' : ChapterState) :
    (loopFrom env v r cc frr s).1 = (loopFrom env v r cc frr s').1 := by
  rw [loopFrom_out_canon env r v cc frr s, loopFrom_out_canon env r v cc frr s']

/-- The control loop's events, final content and passed flag do not depend on
the threaded workflow state dict. -/
theorem runControlLoop_out_state_indep (env : RunEnv) (s s' : ChapterState) :
    (runControlLoop env s).1 = (runControlLoop env s').1 ∧
    (runControlLoop env s).2.1 = (runControlLoop env s').2.1 ∧
    (runControlLoop env s).2.2.1 = (runControlLoop env s').2.2.1 := by
  have h := loopFrom_out_state_indep env maxVersions 1 none none s s'
  simp only [runControlLoop, h]
  cases hp : (loopFrom env 1 maxVersions none none s').1.passed with
  | true => simp [hp]
  | false =>
    cases hf : (loopFrom env 1 maxVersions none none s').1.finalRR with
    | none => simp [hp, hf]
    | some rr => simp [hp, hf]

/-- C8: the `max_review_attempts` and `max_retries` parameters of
`ChapterRunner.run` have no effect on the version/review control loop — two
runs differing only in these parameters perform the identical sequence of
generation and review calls and return the same chapter, because the loop
bounds are the fixed constants `max_versions = 3` and
`max_reviews_per_version = 2` and the parameters only flow into the workflow
state dict, which the loop never reads. -/
theorem C8_retry_params_no_effect (env : RunEnv) (goal : String)
    (chnum : Option Nat) (a a' : Nat) (b b' : Option Nat) :
    runChapter env goal chnum a b = runChapter env goal chnum a' b' := by
  simp only [runChapter]
  obtain ⟨h1, h2, _⟩ := runControlLoop_out_state_indep env
    ({ createInitialState env.novelId
        (match chnum with | some n => n | none => env.novelChapterCount + 1)
        goal (match b with | some m => m | none => a) with
      outline := some env.outline, context := some env.context })
    ({ createInitialState env.novelId
        (match chnum with | some n => n | none => env.novelChapterCount + 1)
        goal (match b' with | some m => m | none => a') with
      outline := some env.outline, context := some env.context })
  rw [h1, h2]

/-- Each loop iteration makes at most 2 writer calls (one generation, at most
one revision) and at most 2 reviewer calls. -/
theorem loopFrom_counts (env : RunEnv) :
    ∀ (r v : Nat) (cc : Option String) (frr : Option ReviewResult)
      (s : ChapterState),
      List.countP isGenerationEvent (loopFrom env v r cc frr s).1.events ≤ 2 * r ∧
      List.countP isReviewEvent (loopFrom env v r cc frr s).1.events ≤ 2 * r := by
  intro r
  induction r with
  | zero => intro v cc frr s; simp [loopFrom]
  | succ r ih =>
    intro v cc frr s
    by_cases h1 : (env.review v 1).status = ReviewStatus.pass
    · simp [loopFrom, h1, List.countP_cons, isGenerationEvent, isReviewEvent]
      omega
    · by_cases h2 : (env.review v 2).status = ReviewStatus.pass
      · simp [loopFrom, h1, h2, List.countP_cons, isGenerationEvent,
          isReviewEvent]
        omega
      · by_cases hsc : (env.review v 1).score < (env.review v 2).score
        · by_cases h3 : (env.review v 2).status = ReviewStatus.rewrite_needed
          · have h := ih (v + 1) (some (env.gen v)) (some (env.review v 2))
              stateScratch
            simp [loopFrom, h1, h2, hsc, h3, List.countP_append,
              List.countP_cons, isGenerationEvent, isReviewEvent]
            rw [loopFrom_out_canon]
            omega
          · by_cases h4 :
              (env.review v 2).status = ReviewStatus.revision_needed
            · have h := ih (v + 1)
                (some (env.revise (env.gen v)
                  (formatFeedback (env.review v 2)))) none stateScratch
              simp [loopFrom, h1, h2, hsc, h3, h4, List.countP_append,
                List.countP_cons, isGenerationEvent, isReviewEvent]
              rw [loopFrom_out_canon]
              omega
            · have h := ih (v + 1) (some (env.gen v)) frr stateScratch
              simp [loopFrom, h1, h2, hsc, h3, h4, List.countP_append,
                List.countP_cons, isGenerationEvent, isReviewEvent]
              rw [loopFrom_out_canon]
              omega
        · by_cases h3 : (env.review v 1).status = ReviewStatus.rewrite_needed
          · have h := ih (v + 1) (some (env.gen v)) (some (env.review v 1))
              stateScratch
            simp [loopFrom, h1, h2, hsc, h3, List.countP_append,
              List.countP_cons, isGenerationEvent, isReviewEvent]
            rw [loopFrom_out_canon]
            omega
          · by_cases h4 :
              (env.review v 1).status = ReviewStatus.revision_needed
            · have h := ih (v + 1)
                (some (env.revise (env.gen v)
                  (formatFeedback (env.review v 1)))) none stateScratch
              simp [loopFrom, h1, h2, hsc, h3, h4, List.countP_append,
                List.countP_cons, isGenerationEvent, isReviewEvent]
              rw [loopFrom_out_canon]
              omega
            · have h := ih (v + 1) (some (env.gen v)) frr stateScratch
              simp [loopFrom, h1, h2, hsc, h3, h4, List.countP_append,
                List.countP_cons, isGenerationEvent, isReviewEvent]
              rw [loopFrom_out_canon]
              omega

/-- The whole control loop (including the forced-accept revision) makes at
most 7 writer calls and at most 6 reviewer calls. -/
theorem runControlLoop_counts (env : RunEnv) (s : ChapterState) :
    List.countP isGenerationEvent (runControlLoop env s).1 ≤ 7 ∧
    List.countP isReviewEvent (runControlLoop env s).1 ≤ 6 := by
  obtain ⟨hg, hr⟩ := loopFrom_counts env maxVersions 1 none none s
  have hm : maxVersions = 3 := rfl
  simp only [runControlLoop]
  cases hp : (loopFrom env 1 maxVersions none none s).1.passed with
  | true => simp [hp]; omega
  | false =>
    cases hf : (loopFrom env 1 maxVersions none none s).1.finalRR with
    | none => simp [hp, hf]; omega
    | some rr =>
      simp [hp, hf, List.countP_append, List.countP_cons, isGenerationEvent,
        isReviewEvent]
      omega

/-- C2: for every sequence of reviewer outcomes, one execution of the chapter
control loop makes at most `max_versions * (max_reviews_per_version + 1)`
writer generation calls (fresh generations and revisions together) and at
most `max_versions * max_reviews_per_version` reviewer calls — with the
configured values, at most 9 generation calls and at most 6 review calls —
and the loop is a total function, so it always terminates. -/
theorem C2_loop_call_bounds (env : RunEnv) (goal : String) (chnum : Option Nat)
    (a : Nat) (b : Option Nat) :
    List.countP isGenerationEvent (runChapter env goal chnum a b).1 ≤
      maxVersions * (maxReviewsPerVersion + 1) ∧
    List.countP isReviewEvent (runChapter env goal chnum a b).1 ≤
      maxVersions * maxReviewsPerVersion ∧
    maxVersions * (maxReviewsPerVersion + 1) = 9 ∧
    maxVersions * maxReviewsPerVersion = 6 := by
  simp only [runChapter]
  exact ⟨le_trans (runControlLoop_counts env _).1 (by decide),
    le_trans (runControlLoop_counts env _).2 (by decide), by decide, by decide⟩

/-- Closed form of the version loop when every review scores 30 (hence
derives `rewrite_needed`): one fresh generation and two reviews per version,
no revision, content is the last version's raw generation, and the best
failed verdict is the last version's first review. -/
theorem loopFrom_all_rewrite (env : RunEnv)
    (h : ∀ v a, (env.review v a).score = 30 ∧
      (env.review v a).status = ReviewStatus.rewrite_needed) :
    ∀ (r v : Nat) (cc : Option String) (frr : Option ReviewResult)
      (s : ChapterState),
      List.countP isFreshGenEvent (loopFrom env v r cc frr s).1.events = r ∧
      List.countP isReviewEvent (loopFrom env v r cc frr s).1.events = 2 * r ∧
      List.countP isReviseEvent (loopFrom env v r cc frr s).1.events = 0 ∧
      (loopFrom env v r cc frr s).1.content =
        (if r = 0 then cc else some (env.gen (v + r - 1))) ∧
      (loopFrom env v r cc frr s).1.finalRR =
        (if r = 0 then frr else some (env.review (v + r - 1) 1)) ∧
      (loopFrom env v r cc frr s).1.passed = false := by
  intro r
  induction r with
  | zero => intro v cc frr s; simp [loopFrom]
  | succ r ih =>
    intro v cc frr s
    have h1 := (h v 1).2
    have h2 := (h v 2).2
    have hsc : ¬((env.review v 1).score < (env.review v 2).score) := by
      rw [(h v 1).1, (h v 2).1]
      omega
    obtain ⟨ihg, ihr, ihv, ihc, ihf, ihp⟩ :=
      ih (v + 1) (some (env.gen v)) (some (env.review v 1)) stateScratch
    simp only [loopFrom, h1, h2, hsc, reduceCtorEq, if_false, ite_false]
    rw [loopFrom_out_canon]
    refine ⟨?_, ?_, ?_, ?_, ?_, ihp⟩
    · simp [List.countP_cons, isFreshGenEvent, ihg]
    · simp [List.countP_cons, isReviewEvent, ihr]
      omega
    · simp [List.countP_cons, isReviseEvent]
      intro a ha
      simpa [isReviseEvent] using List.countP_eq_zero.mp ihv a ha
    · rw [ihc]
      rcases Nat.eq_zero_or_pos r with rfl | hrpos
      · simp
      · have hne : r ≠ 0 := Nat.pos_iff_ne_zero.mp hrpos
        have harith : v + 1 + r - 1 = v + (r + 1) - 1 := by omega
        simp [hne, harith]
    · rw [ihf]
      rcases Nat.eq_zero_or_pos r with rfl | hrpos
      · simp
      · have hne : r ≠ 0 := Nat.pos_iff_ne_zero.mp hrpos
        have harith : v + 1 + r - 1 = v + (r + 1) - 1 := by omega
        simp [hne, harith]

/-- C3 (amended): if the reviewer returns score 30 (hence `rewrite_needed`)
on every review call, the control loop performs exactly 3 versions × 2
reviews = 6 review calls and exactly 3 fresh generation calls, and then —
because the saved best failed verdict of version 3 is non-`None` and a
pydantic object is truthy — performs exactly one final forced-accept
revision call, returning the revision of the last version's raw content
guided by version 3's first review (the tie-break winner), not the raw
content itself. -/
theorem C3_all_rewrite_forced_revision (env : RunEnv) (goal : String)
    (chnum : Option Nat) (a : Nat) (b : Option Nat)
    (h : ∀ v att, (env.review v att).score = 30 ∧
      (env.review v att).status = ReviewStatus.rewrite_needed) :
    List.countP isReviewEvent (runChapter env goal chnum a b).1 = 6 ∧
    List.countP isFreshGenEvent (runChapter env goal chnum a b).1 = 3 ∧
    List.countP isReviseEvent (runChapter env goal chnum a b).1 = 1 ∧
    (runChapter env goal chnum a b).2.content =
      env.revise (env.gen 3) (formatFeedback (env.review 3 1)) := by
  obtain ⟨hg, hr, hv, hc, hf, hp⟩ := loopFrom_all_rewrite env h 3 1
    none none stateScratch
  norm_num at hc hf
  simp only [runChapter, runControlLoop]
  rw [loopFrom_out_canon, show maxVersions = 3 from rfl]
  simp only [hp, hf, hc]
  simp [List.countP_append, List.countP_cons, isReviewEvent, isFreshGenEvent,
    isReviseEvent, hg, hr, hv]

/-- C3 witness: the all-rewrite scenario instantiated with the concrete
environment `env30`. -/
theorem C3_all_rewrite_forced_revision_witness :
    (∀ v att, (env30.review v att).score = 30 ∧
      (env30.review v att).status = ReviewStatus.rewrite_needed) ∧
    (runChapter env30 "start" (some 1) 3 none).2.content =
      env30.revise (env30.gen 3) (formatFeedback (env30.review 3 1)) :=
  ⟨fun _ _ => ⟨rfl, rfl⟩,
   (C3_all_rewrite_forced_revision env30 "start" (some 1) 3 none
     (fun _ _ => ⟨rfl, rfl⟩)).2.2.2⟩

/-- C3 counterexample: with a reviewer stub that always returns score 30, the
run performs one revise call (not zero) and returns revised content, not the
last version's raw generated content. -/
theorem C3_forced_accept_counterexample :
    List.countP isReviseEvent (runChapter env30 "start" (some 1) 3 none).1 = 1 ∧
    List.countP isFreshGenEvent
      (runChapter env30 "start" (some 1) 3 none).1 = 3 ∧
    List.countP isReviewEvent (runChapter env30 "start" (some 1) 3 none).1 = 6 ∧
    env30.gen 3 = "draft three" ∧
    (runChapter env30 "start" (some 1) 3 none).2.content =
      "revised draft three" ∧
    (runChapter env30 "start" (some 1) 3 none).2.content ≠ env30.gen 3 := by
  refine ⟨?_, ?_, ?_, by decide, ?_, ?_⟩ <;> decide

/-- Appending a final revision to a trace is fresh-revising iff the trace was
and its last fresh generation is exactly the revision's original content. -/
theorem revisesFromFresh_append_revise (t : List Event) :
    ∀ (last : Option String) (o f c : String),
      revisesFromFresh last (t ++ [Event.reviseCall o f c]) =
        (revisesFromFresh last t && decide (trackLast last t = some o)) := by
  induction t with
  | nil => intro last o f c; simp [revisesFromFresh, trackLast]
  | cons e es ih =>
    intro last o f c
    cases e <;> simp [revisesFromFresh, trackLast, ih, Bool.and_assoc]

/-- Loop invariant: every revision in the version loop revises the content of
the most recent fresh generation, and whenever the loop exits with a saved
best failed verdict, the current content is exactly the last fresh
generation's output (no revision consumed it). -/
theorem loopFrom_fresh (env : RunEnv) :
    ∀ (r v : Nat) (cc : Option String) (frr : Option ReviewResult)
      (s : ChapterState) (last : Option String),
      (frr ≠ none → (last = cc ∧ cc ≠ none)) →
      revisesFromFresh last (loopFrom env v r cc frr s).1.events = true ∧
      ((loopFrom env v r cc frr s).1.finalRR ≠ none →
        (trackLast last (loopFrom env v r cc frr s).1.events =
            (loopFrom env v r cc frr s).1.content ∧
          (loopFrom env v r cc frr s).1.content ≠ none)) := by
  intro r
  induction r with
  | zero =>
    intro v cc frr s last hpre
    refine ⟨rfl, ?_⟩
    intro hfrr
    obtain ⟨hl, hc⟩ := hpre (by simpa [loopFrom] using hfrr)
    simpa [loopFrom, trackLast] using ⟨hl, hc⟩
  | succ r ih =>
    intro v cc frr s last hpre
    by_cases h1 : (env.review v 1).status = ReviewStatus.pass
    · simp [loopFrom, h1, revisesFromFresh, trackLast]
    · by_cases h2 : (env.review v 2).status = ReviewStatus.pass
      · simp [loopFrom, h1, h2, revisesFromFresh, trackLast]
      · by_cases hsc : (env.review v 1).score < (env.review v 2).score
        · by_cases h3 : (env.review v 2).status = ReviewStatus.rewrite_needed
          · obtain ⟨ih1, ih2⟩ := ih (v + 1) (some (env.gen v))
              (some (env.review v 2)) stateScratch (some (env.gen v))
              (fun _ => ⟨rfl, by simp⟩)
            simp only [loopFrom, h1, h2, hsc, h3, reduceCtorEq, if_false,
              ite_false, if_true, ite_true, eq_self_iff_true]
            rw [loopFrom_out_canon]
            simp [revisesFromFresh, trackLast, ih1]
            exact ih2
          · by_cases h4 :
              (env.review v 2).status = ReviewStatus.revision_needed
            · obtain ⟨ih1, ih2⟩ := ih (v + 1)
                (some (env.revise (env.gen v)
                  (formatFeedback (env.review v 2)))) none stateScratch none
                (fun hcon => absurd rfl hcon)
              simp only [loopFrom, h1, h2, hsc, h3, h4, reduceCtorEq,
                if_false, ite_false, if_true, ite_true, eq_self_iff_true]
              rw [loopFrom_out_canon]
              simp [revisesFromFresh, trackLast, ih1]
              exact ih2
            · obtain ⟨ih1, ih2⟩ := ih (v + 1) (some (env.gen v)) frr
                stateScratch (some (env.gen v)) (fun _ => ⟨rfl, by simp⟩)
              simp only [loopFrom, h1, h2, hsc, h3, h4, reduceCtorEq,
                if_false, ite_false, if_true, ite_true, eq_self_iff_true]
              rw [loopFrom_out_canon]
              simp [revisesFromFresh, trackLast, ih1]
              exact ih2
        · by_cases h3 : (env.review v 1).status = ReviewStatus.rewrite_needed
          · obtain ⟨ih1, ih2⟩ := ih (v + 1) (some (env.gen v))
              (some (env.review v 1)) stateScratch (some (env.gen v))
              (fun _ => ⟨rfl, by simp⟩)
            simp only [loopFrom, h1, h2, hsc, h3, reduceCtorEq, if_false,
              ite_false, if_true, ite_true, eq_self_iff_true]
            rw [loopFrom_out_canon]
            simp [revisesFromFresh, trackLast, ih1]
            exact ih2
          · by_cases h4 :
              (env.review v 1).status = ReviewStatus.revision_needed
            · obtain ⟨ih1, ih2⟩ := ih (v + 1)
                (some (env.revise (env.gen v)
                  (formatFeedback (env.review v 1)))) none stateScratch none
                (fun hcon => absurd rfl hcon)
              simp only [loopFrom, h1, h2, hsc, h3, h4, reduceCtorEq,
                if_false, ite_false, if_true, ite_true, eq_self_iff_true]
              rw [loopFrom_out_canon]
              simp [revisesFromFresh, trackLast, ih1]
              exact ih2
            · obtain ⟨ih1, ih2⟩ := ih (v + 1) (some (env.gen v)) frr
                stateScratch (some (env.gen v)) (fun _ => ⟨rfl, by simp⟩)
              simp only [loopFrom, h1, h2, hsc, h3, h4, reduceCtorEq,
                if_false, ite_false, if_true, ite_true, eq_self_iff_true]
              rw [loopFrom_out_canon]
              simp [revisesFromFresh, trackLast, ih1]
              exact ih2

/-- C4: in every execution of the control loop, a content text produced by a
revision call is never passed as the `original_content` of a second revision
call without a fresh generation in between — every `reviseCall` in the trace
takes the most recent `genCall`'s content, the mid-loop revision clears the
saved best failed verdict, and the final forced-accept revision therefore
only ever revises a raw generated version. -/
theorem C4_no_double_revision (env : RunEnv) (goal : String)
    (chnum : Option Nat) (a : Nat) (b : Option Nat) :
    revisesFromFresh none (runChapter env goal chnum a b).1 = true := by
  simp only [runChapter, runControlLoop]
  rw [loopFrom_out_canon]
  obtain ⟨h1, h2⟩ := loopFrom_fresh env maxVersions 1 none none stateScratch
    none (fun hcon => absurd rfl hcon)
  cases hp : (loopFrom env 1 maxVersions none none stateScratch).1.passed with
  | true => simpa [hp] using h1
  | false =>
    cases hf :
        (loopFrom env 1 maxVersions none none stateScratch).1.finalRR with
    | none => simpa [hp, hf] using h1
    | some rr =>
      obtain ⟨ht, hcne⟩ := h2 (by rw [hf]; exact Option.some_ne_none rr)
      obtain ⟨cval, hcval⟩ := Option.ne_none_iff_exists'.mp hcne
      simp [hp, hf, revisesFromFresh_append_revise, h1, ht, hcval]

/-- Binding a failed `Except` computation propagates the error. -/
theorem except_error_bind {α β : Type} (e : String)
    (f : α → Except String β) :
    (Except.error e : Except String α) >>= f = Except.error e := rfl

/-- Binding a successful `Except` computation applies the continuation. -/
theorem except_ok_bind {α β : Type} (a : α) (f : α → Except String β) :
    (Except.ok a : Except String α) >>= f = f a := rfl

/-- C5: if any pipeline stage (director, plotter, context build, writer,
reviewer) raises during chapter generation, `ChapterRunner.run` propagates
that exception unmodified and no store mutation happens for that chapter:
the stores are returned exactly as given whenever the run fails, because
`save_chapter` and every other mutation live only inside the archival step,
which runs only after the control loop has produced final content. -/
theorem C5_no_partial_persistence (env : PipelineEnv) (chnum : Option Nat)
    (stores : Stores) :
    (∀ e, (runPipeline env chnum stores).1 = Except.error e →
      (runPipeline env chnum stores).2 = stores) ∧
    (stores.structured.novel = none →
      runPipeline env chnum stores =
        (Except.error "Novel not found. Please initialize the novel first.",
          stores)) ∧
    (∀ nv e, stores.structured.novel = some nv →
      env.director = Except.error e →
      runPipeline env chnum stores = (Except.error e, stores)) ∧
    (∀ nv d e, stores.structured.novel = some nv →
      env.director = Except.ok d → env.plotter = Except.error e →
      runPipeline env chnum stores = (Except.error e, stores)) ∧
    (∀ nv d outline e, stores.structured.novel = some nv →
      env.director = Except.ok d → env.plotter = Except.ok outline →
      env.contextBuild = Except.error e →
      runPipeline env chnum stores = (Except.error e, stores)) ∧
    (∀ nv d outline ctx e, stores.structured.novel = some nv →
      env.director = Except.ok d → env.plotter = Except.ok outline →
      env.contextBuild = Except.ok ctx →
      runControlLoopE env = Except.error e →
      runPipeline env chnum stores = (Except.error e, stores)) ∧
    (∀ e, env.gen 1 = Except.error e →
      runControlLoopE env = Except.error e) ∧
    (∀ c e, env.gen 1 = Except.ok c →
      env.review 1 1 = Except.error e →
      runControlLoopE env = Except.error e) := by
  refine ⟨?_, ?_, ?_, ?_, ?_, ?_, ?_, ?_⟩
  · intro e he
    cases hn : stores.structured.novel with
    | none => simp [runPipeline, hn]
    | some nv =>
      cases hd : env.director with
      | error e' => simp [runPipeline, hn, hd]
      | ok d =>
        cases hpl : env.plotter with
        | error e' => simp [runPipeline, hn, hd, hpl]
        | ok outline =>
          cases hcb : env.contextBuild with
          | error e' => simp [runPipeline, hn, hd, hpl, hcb]
          | ok ctx =>
            cases hlp : runControlLoopE env with
            | error e' => simp [runPipeline, hn, hd, hpl, hcb, hlp]
            | ok content =>
              cases ha : env.archiveExtract with
              | error e' => simp [runPipeline, hn, hd, hpl, hcb, hlp, ha]
              | ok result =>
                simp [runPipeline, hn, hd, hpl, hcb, hlp, ha] at he
  · intro hn
    simp [runPipeline, hn]
  · intro nv e hn hd
    simp [runPipeline, hn, hd]
  · intro nv d e hn hd hpl
    simp [runPipeline, hn, hd, hpl]
  · intro nv d outline e hn hd hpl hcb
    simp [runPipeline, hn, hd, hpl, hcb]
  · intro nv d outline ctx e hn hd hpl hcb hlp
    simp [runPipeline, hn, hd, hpl, hcb, hlp]
  · intro e hgen
    have hloop : loopFromE env 1 maxVersions none none = Except.error e := by
      show loopFromE env 1 (2 + 1) none none = Except.error e
      simp [loopFromE, hgen, except_error_bind]
    simp [runControlLoopE, hloop, except_error_bind]
  · intro c e hgen hrev
    have hloop : loopFromE env 1 maxVersions none none = Except.error e := by
      show loopFromE env 1 (2 + 1) none none = Except.error e
      simp [loopFromE, hgen, hrev, except_ok_bind, except_error_bind]
    simp [runControlLoopE, hloop, except_error_bind]

/-- C5 witness: a failing director stage propagates its message and leaves
the example stores untouched. -/
theorem C5_no_partial_persistence_witness :
    storesExample.structured.novel = some novelExample ∧
    pipelineEnvDirectorFails.director = Except.error "rate limited" ∧
    runPipeline pipelineEnvDirectorFails none storesExample =
      (Except.error "rate limited", storesExample) :=
  ⟨rfl, rfl,
   (C5_no_partial_persistence pipelineEnvDirectorFails none
     storesExample).2.2.1 novelExample "rate limited" rfl rfl⟩

end NovelWriter
